import Mathlib

/-!
Shallow embedding of the session / authentication / query layer of the
`ring_doorbell` Python client (`ring_doorbell/__init__.py`), together with the
device-directory and device-handle operations, and proofs of the behavioural
claims about them.

Modelling conventions:
* Python/JSON values are modelled by `JVal`; Python `None` is `JVal.null`.
* Python dictionaries are association lists (`Dict`) whose keys are unique in
  all states the code constructs.
* The HTTP transport is a black box: a function from the index of the HTTP
  request (in program order) to the response.  A `World` carries the transport
  together with observation counters (requests sent, authentications run, the
  parameter sets attached to query dispatches).
* Exceptions are explicit: a stateful operation returns an `Outcome`, which in
  both the normal and the exceptional case carries the session state and
  world as mutated so far, exactly as a raised Python exception leaves
  already-performed mutations in place.
* The Python class `Ring` is embedded as the structure `RingClient` (the name
  `Ring` is taken by Mathlib); its methods keep their source names.
-/

set_option linter.unusedVariables false

/-- Python/JSON values as used by the client; `null` doubles as Python `None`. -/
inductive JVal : Type where
  | null : JVal
  | bool (b : Bool) : JVal
  | int (n : Int) : JVal
  | str (s : String) : JVal
  | arr (xs : List JVal) : JVal
  | obj (fields : List (String × JVal)) : JVal

mutual

/-- Python structural equality `==` on JSON values. -/
def JVal.beq : JVal → JVal → Bool
  | .null, .null => true
  | .bool a, .bool b => a == b
  | .int a, .int b => a == b
  | .str a, .str b => a == b
  | .arr xs, .arr ys => JVal.beqList xs ys
  | .obj xs, .obj ys => JVal.beqFields xs ys
  | _, _ => false

/-- Pointwise `==` on JSON lists. -/
def JVal.beqList : List JVal → List JVal → Bool
  | [], [] => true
  | x :: xs, y :: ys => JVal.beq x y && JVal.beqList xs ys
  | _, _ => false

/-- Pointwise `==` on JSON object field lists. -/
def JVal.beqFields : List (String × JVal) → List (String × JVal) → Bool
  | [], [] => true
  | (k, x) :: xs, (l, y) :: ys => k == l && (JVal.beq x y && JVal.beqFields xs ys)
  | _, _ => false

end

/-- Python dictionaries, as association lists. -/
abbrev Dict := List (String × JVal)

/-- Python exceptions that the embedded code can raise. -/
inductive PyErr : Type where
  | attributeError : PyErr
  | typeError : PyErr
  | keyError (k : String) : PyErr
  | nameError : PyErr
  | httpError (status : Nat) : PyErr
deriving DecidableEq

/-- Lookup in a dictionary (first binding of the key). -/
def dget : Dict → String → Option JVal
  | [], _ => none
  | kv :: rest, k => if kv.fst = k then some kv.snd else dget rest k

/-- Python dict assignment `d[k] = v`: replace the binding of `k` in place,
appending a new binding when `k` is absent. -/
def dset : Dict → String → JVal → Dict
  | [], k, v => [(k, v)]
  | kv :: rest, k, v =>
    if kv.fst = k then (k, v) :: rest else kv :: dset rest k v

/-- Python `d.update(e)`: merge `e` into `d`, overwriting existing keys. -/
def dupdate (d : Dict) (e : Dict) : Dict :=
  e.foldl (fun acc kv => dset acc kv.fst kv.snd) d

/-- Python `v.get(k)` as the code uses it: on a dict, lookup with `None`
default; on anything else (including `None`) an `AttributeError`. -/
def pyGet (v : JVal) (k : String) : Except PyErr JVal :=
  match v with
  | .obj fs => .ok ((dget fs k).getD JVal.null)
  | _ => .error PyErr.attributeError

/-- Python subscripting `v[k]` with a string key: `KeyError` on a dict missing
the key, `TypeError` on a non-dict. -/
def pySubscript (v : JVal) (k : String) : Except PyErr JVal :=
  match v with
  | .obj fs =>
    match dget fs k with
    | some x => .ok x
    | none => .error (PyErr.keyError k)
  | _ => .error PyErr.typeError

/-- Python `str(v)` (only its result being a string matters to the claims). -/
def pyStr : JVal → String
  | .null => "None"
  | .bool b => if b then "True" else "False"
  | .int n => toString n
  | .str s => s
  | .arr _ => "a list"
  | .obj _ => "a dict"

/-- Python truthiness of the tri-state `is_connected` field
(`None`/`False`/`True`). -/
def truthy : Option Bool → Bool
  | none => false
  | some b => b

/-- An HTTP response: status code plus parsed JSON body. -/
structure HResp : Type where
  status : Nat
  json : JVal

/-- The mutable state of a `Ring` session object (the `Ring.__init__` fields
that the core layer reads and writes). -/
structure RingClient : Type where
  features : JVal
  is_connected : Option Bool
  _id : JVal
  token : JVal
  params : Option Dict
  debug : Bool

/-- The external world: the HTTP transport (response to the `n`-th request
issued, in program order) plus pure observation counters: `calls` counts HTTP
requests sent, `auths` counts `_authenticate` invocations, `qparams` records
the parameter set attached to each `query` dispatch. -/
structure World : Type where
  transport : Nat → HResp
  calls : Nat
  auths : Nat
  qparams : List Dict

/-- Outcome of a stateful operation: normal return or raised exception, in
both cases carrying the session state and world as mutated so far. -/
inductive Outcome (α : Type) : Type where
  | ok (v : α) (st : RingClient) (w : World) : Outcome α
  | exn (e : PyErr) (st : RingClient) (w : World) : Outcome α

/-- The session state carried by an outcome (mutations survive a raise). -/
def Outcome.state {α : Type} : Outcome α → RingClient
  | .ok _ st _ => st
  | .exn _ st _ => st

/-- The world carried by an outcome. -/
def Outcome.world {α : Type} : Outcome α → World
  | .ok _ _ w => w
  | .exn _ _ w => w

/-- Whether the outcome is a raised exception. -/
def Outcome.isExn {α : Type} : Outcome α → Bool
  | .ok _ _ _ => false
  | .exn _ _ _ => true

/-- The raised exception, when there is one. -/
def Outcome.exnOf {α : Type} : Outcome α → Option PyErr
  | .ok _ _ _ => none
  | .exn e _ _ => some e

/-- Modelled from the spec: `RETRY_TOKEN` is the fixed bounded retry constant
`R` shared by the Authenticator and the QueryEngine (`ring_doorbell/const.py`
is not under `src/`; the spec fixes no numeric value, so the development
states its theorems for an arbitrary retry count and instantiates witnesses
at this value). -/
def RETRY_TOKEN : Nat := 3

/-- Modelled from the spec: the `API_VERSION` constant placed in the session
parameter set (`ring_doorbell/const.py` is not under `src/`; its value is
opaque simple data). -/
def API_VERSION : JVal := JVal.str "9"

/-- Modelled from the spec: base URI constant string (`API_URI`;
`ring_doorbell/const.py` is not under `src/`; the value is opaque). -/
def API_URI : String := "https://api.ring.com"

/-- Modelled from the spec: the device-list endpoint (`DEVICES_ENDPOINT`). -/
def DEVICES_ENDPOINT : String := "/clients_api/ring_devices"

/-- URL of the device-list endpoint, as built by the code. -/
def devicesUrl : String := API_URI ++ DEVICES_ENDPOINT

/-- The field extraction performed on a 201 login response:
`req.json().get('profile')` followed by `.get('features')`, `.get('id')`,
`.get('authentication_token')` (`Ring._authenticate`, success branch).  On a
dict `profile` no step can raise; on a non-dict the first `.get` raises
before any session field is assigned, matching the all-or-nothing update. -/
def extractAuth (j : JVal) : Except PyErr (JVal × JVal × JVal) :=
  match pyGet j "profile" with
  | .error e => .error e
  | .ok data =>
    match pyGet data "features" with
    | .error e => .error e
    | .ok f =>
      match pyGet data "id" with
      | .error e => .error e
      | .ok i =>
        match pyGet data "authentication_token" with
        | .error e => .error e
        | .ok t => .ok (f, i, t)

/-- The `while loop <= attempts` body of `Ring._authenticate`, with `fuel`
the number of iterations still to run and `last` the response seen by the
most recent iteration (the Python `req` variable).  After the loop the code
sets `is_connected = False` and calls `req.raise_for_status()`, which raises
exactly when the final status is an HTTP error (>= 400); `last = none` with
zero fuel corresponds to Python's unbound `req` (`NameError`), unreachable
from `_authenticate` since the loop always runs at least once. -/
def RingClient.authLoop (st : RingClient) (w : World) :
    Nat → Option HResp → Outcome (Option Bool)
  | 0, last =>
    let st' := { st with is_connected := some false }
    match last with
    | none => Outcome.exn PyErr.nameError st' w
    | some r =>
      if 400 ≤ r.status then Outcome.exn (PyErr.httpError r.status) st' w
      else Outcome.ok none st' w
  | fuel + 1, _ =>
    let req := w.transport w.calls
    let w' := { w with calls := w.calls + 1 }
    if req.status = 201 then
      match extractAuth req.json with
      | .error e => Outcome.exn e st w'
      | .ok (f, i, t) =>
        Outcome.ok (some true)
          { st with features := f, _id := i, is_connected := some true, token := t,
                    params := some [("api_version", API_VERSION), ("auth_token", t)] }
          w'
    else RingClient.authLoop st w' fuel (some req)

/-- `Ring._authenticate(attempts)`: run the login loop `attempts + 1` times. -/
def RingClient.authenticate (st : RingClient) (w : World) (attempts : Nat) :
    Outcome (Option Bool) :=
  RingClient.authLoop st { w with auths := w.auths + 1 } (attempts + 1) none

/-- `Ring.__init__`: initialize all session fields and run `_authenticate`
with the default retry count. -/
def RingClient.init (username password : String) (debug : Bool) (w : World) :
    Outcome (Option Bool) :=
  RingClient.authenticate
    { features := JVal.null, is_connected := none, _id := JVal.null, token := JVal.null,
      params := none, debug := debug } w RETRY_TOKEN

/-- HTTP method dispatched by `Ring.query`. -/
inductive Method : Type where
  | GET : Method
  | PUT : Method
  | POST : Method
deriving DecidableEq

/-- What `Ring.query` returns on success: the raw response object, or the
parsed JSON body. -/
inductive QueryResult : Type where
  | raw (r : HResp) : QueryResult
  | json (j : JVal) : QueryResult

/-- The per-iteration parameter handling of `Ring.query`: when `extra_params`
is truthy (present and non-empty), `params = self.params` aliases the session
dict and `params.update(extra_params)` mutates it in place (`AttributeError`
when `self.params` is `None`); otherwise `params = self.params` is used
unchanged (`urlencode(None)` then raises `TypeError`). -/
def mergeParams (st : RingClient) (extra : Option Dict) : Except PyErr (RingClient × Dict) :=
  match extra with
  | some e =>
    if e.isEmpty then
      match st.params with
      | some p => Except.ok (st, p)
      | none => Except.error PyErr.typeError
    else
      match st.params with
      | none => Except.error PyErr.attributeError
      | some p => Except.ok ({ st with params := some (dupdate p e) }, dupdate p e)
  | none =>
    match st.params with
    | some p => Except.ok (st, p)
    | none => Except.error PyErr.typeError

/-- The `while loop <= attempts` body of `Ring.query`: merge parameters,
dispatch, then: on 401 mark disconnected, re-authenticate (default retry
count) and continue; on 200/204 return the raw response, the JSON body for
GET, or `None` for non-raw PUT/POST; on any other status fall through to the
next attempt.  Exhaustion returns `None`. -/
def RingClient.queryLoop (method : Method) (raw : Bool) (extra : Option Dict) :
    Nat → RingClient → World → Outcome (Option QueryResult)
  | 0, st, w => Outcome.ok none st w
  | fuel + 1, st, w =>
    match mergeParams st extra with
    | .error e => Outcome.exn e st w
    | .ok (st1, p) =>
      let req := w.transport w.calls
      let w1 := { w with calls := w.calls + 1, qparams := w.qparams ++ [p] }
      if req.status = 401 then
        match RingClient.authenticate { st1 with is_connected := some false } w1 RETRY_TOKEN with
        | Outcome.exn e st2 w2 => Outcome.exn e st2 w2
        | Outcome.ok _ st2 w2 => RingClient.queryLoop method raw extra fuel st2 w2
      else if req.status = 200 ∨ req.status = 204 then
        (if raw then Outcome.ok (some (QueryResult.raw req)) st1 w1
         else if method = Method.GET then Outcome.ok (some (QueryResult.json req.json)) st1 w1
         else Outcome.ok none st1 w1)
      else RingClient.queryLoop method raw extra fuel st1 w1

/-- `Ring.query(url, attempts, method, raw, extra_params)`: in debug mode with
a non-truthy connectivity flag, proactively re-authenticate first; then run
the attempt loop `attempts + 1` times. -/
def RingClient.query (st : RingClient) (w : World) (url : String) (attempts : Nat)
    (method : Method) (raw : Bool) (extra : Option Dict) : Outcome (Option QueryResult) :=
  if st.debug && !(truthy st.is_connected) then
    match RingClient.authenticate st w RETRY_TOKEN with
    | Outcome.exn e st' w' => Outcome.exn e st' w'
    | Outcome.ok _ st' w' => RingClient.queryLoop method raw extra (attempts + 1) st' w'
  else RingClient.queryLoop method raw extra (attempts + 1) st w

/-- A device handle (`RingGeneric` and its two variants): held descriptor
(`_attrs`, `JVal.null` when unset), device family key, human-readable name
(the `description` the handle was created from). -/
structure Device : Type where
  attrs : JVal
  family : String
  name : JVal

/-- Modelled from the spec: the helper `_locator` of `ring_doorbell.utils`
(not under `src/`) locates the first entry of a list whose `key` field equals
`value` (linear scan), returning a `NOT_FOUND` sentinel — here `none` — when
no entry matches.  Subscripting a malformed entry propagates the Python error
of `entry[key]`. -/
def locatorAux (key : String) (value : JVal) : List JVal → Nat → Except PyErr (Option Nat)
  | [], _ => Except.ok none
  | d :: rest, i =>
    match pySubscript d key with
    | .error e => Except.error e
    | .ok v =>
      if JVal.beq v value then Except.ok (some i) else locatorAux key value rest (i + 1)

/-- The body of the `try` block of `RingGeneric._get_attrs` after the query:
`lst = result.get(family)` (`AttributeError` on `None` or a raw response or a
non-dict body), then `_locator(lst, 'description', name)`; iterating a
non-list `lst` raises `TypeError` (an empty dict or empty string iterates
zero entries, so the scan just misses).  Returns the matched entry. -/
def getAttrsScan (dev : Device) (res : Option QueryResult) : Except PyErr (Option JVal) :=
  match res with
  | none => Except.error PyErr.attributeError
  | some (QueryResult.raw _) => Except.error PyErr.attributeError
  | some (QueryResult.json j) =>
    match pyGet j dev.family with
    | .error e => Except.error e
    | .ok lst =>
      match lst with
      | JVal.arr xs =>
        match locatorAux "description" dev.name xs 0 with
        | .error e => Except.error e
        | .ok none => Except.ok none
        | .ok (some i) => Except.ok (some (xs.getD i JVal.null))
      | JVal.obj [] => Except.ok none
      | JVal.str "" => Except.ok none
      | _ => Except.error PyErr.typeError

/-- `RingGeneric._get_attrs`: query the device list, locate the entry whose
`description` equals the handle's name inside the family sub-list, and
replace the held descriptor with it.  `AttributeError` anywhere in the `try`
block (including one raised by `query` itself) is swallowed and leaves the
descriptor untouched; any other exception propagates. -/
def RingGeneric.get_attrs (dev : Device) (st : RingClient) (w : World) :
    Outcome (Device × Option Bool) :=
  match RingClient.query st w devicesUrl RETRY_TOKEN Method.GET false none with
  | Outcome.exn PyErr.attributeError st' w' => Outcome.ok (dev, none) st' w'
  | Outcome.exn e st' w' => Outcome.exn e st' w'
  | Outcome.ok res st' w' =>
    match getAttrsScan dev res with
    | .error PyErr.attributeError => Outcome.ok (dev, none) st' w'
    | .error e => Outcome.exn e st' w'
    | .ok none => Outcome.ok (dev, none) st' w'
    | .ok (some a) => Outcome.ok ({ dev with attrs := a }, some true) st' w'

/-- `RingGeneric.account_id`: `self._attrs.get('id')`. -/
def RingGeneric.account_id (dev : Device) : Except PyErr JVal :=
  pyGet dev.attrs "id"

/-- `RingGeneric.address`: `self._attrs.get('address')`. -/
def RingGeneric.address (dev : Device) : Except PyErr JVal :=
  pyGet dev.attrs "address"

/-- `RingGeneric.firmware`: `self._attrs.get('firmware_version')`. -/
def RingGeneric.firmware (dev : Device) : Except PyErr JVal :=
  pyGet dev.attrs "firmware_version"

/-- `RingGeneric.id`: `self._attrs.get('device_id')`. -/
def RingGeneric.id (dev : Device) : Except PyErr JVal :=
  pyGet dev.attrs "device_id"

/-- `RingGeneric.latitude`: `self._attrs.get('latitude')`. -/
def RingGeneric.latitude (dev : Device) : Except PyErr JVal :=
  pyGet dev.attrs "latitude"

/-- `RingGeneric.longitude`: `self._attrs.get('longitude')`. -/
def RingGeneric.longitude (dev : Device) : Except PyErr JVal :=
  pyGet dev.attrs "longitude"

/-- `RingGeneric.kind`: `self._attrs.get('kind')`. -/
def RingGeneric.kind (dev : Device) : Except PyErr JVal :=
  pyGet dev.attrs "kind"

/-- `RingGeneric.timezone`: `self._attrs.get('time_zone')`. -/
def RingGeneric.timezone (dev : Device) : Except PyErr JVal :=
  pyGet dev.attrs "time_zone"

/-- `list((obj['description'] for obj in req))` in `Ring.__devices`:
materialize all descriptions left to right; the first failing subscript
raises. -/
def devDescList : List JVal → Except PyErr (List JVal)
  | [] => Except.ok []
  | o :: rest =>
    match pySubscript o "description" with
    | .error e => Except.error e
    | .ok d =>
      match devDescList rest with
      | .error e => Except.error e
      | .ok ds => Except.ok (d :: ds)

/-- Description extraction over the family sub-list: iterating a non-list
value raises `TypeError` (Python: `'NoneType' object is not iterable` when
the family key was absent and `.get` returned `None`); an empty dict or
empty string iterates zero entries. -/
def devDescriptions : JVal → Except PyErr (List JVal)
  | JVal.arr xs => devDescList xs
  | JVal.obj [] => Except.ok []
  | JVal.str "" => Except.ok []
  | _ => Except.error PyErr.typeError

/-- The construction loop of `Ring.__devices`: each description becomes a
fresh handle (`RingChime`/`RingDoorBell.__init__`) whose constructor runs
`update()` (= `_get_attrs`), threading the shared session. -/
def buildHandles (family : String) :
    List JVal → List Device → RingClient → World → Outcome (List Device)
  | [], acc, st, w => Outcome.ok acc st w
  | m :: rest, acc, st, w =>
    match RingGeneric.get_attrs { attrs := JVal.null, family := family, name := m } st w with
    | Outcome.exn e st' w' => Outcome.exn e st' w'
    | Outcome.ok (dev, _) st' w' => buildHandles family rest (acc ++ [dev]) st' w'

/-- One family branch of `Ring.__devices`: query the device list, take the
family sub-list via `.get`, extract all descriptions, construct handles. -/
def RingClient.devicesBranch (family : String) (st : RingClient) (w : World) :
    Outcome (List Device) :=
  match RingClient.query st w devicesUrl RETRY_TOKEN Method.GET false none with
  | Outcome.exn e st' w' => Outcome.exn e st' w'
  | Outcome.ok res st' w' =>
    match res with
    | none => Outcome.exn PyErr.attributeError st' w'
    | some (QueryResult.raw _) => Outcome.exn PyErr.attributeError st' w'
    | some (QueryResult.json j) =>
      match pyGet j family with
      | .error e => Outcome.exn e st' w'
      | .ok req =>
        match devDescriptions req with
        | .error e => Outcome.exn e st' w'
        | .ok ms => buildHandles family ms [] st' w'

/-- `Ring.__devices(device_type)`: run the matching family branch inside a
`try` that swallows `AttributeError` (returning the list built so far — any
`AttributeError` occurs before the first handle is appended) and lets every
other exception propagate. -/
def RingClient.devicesByType (device_type : String) (st : RingClient) (w : World) :
    Outcome (List Device) :=
  let step1 : Outcome (List Device) :=
    if device_type = "chime" then
      match RingClient.devicesBranch "chimes" st w with
      | Outcome.exn PyErr.attributeError st' w' => Outcome.ok [] st' w'
      | o => o
    else Outcome.ok [] st w
  match step1 with
  | Outcome.exn e st' w' => Outcome.exn e st' w'
  | Outcome.ok lst st' w' =>
    if device_type = "doorbell" then
      match RingClient.devicesBranch "doorbots" st' w' with
      | Outcome.exn PyErr.attributeError st2 w2 => Outcome.ok lst st2 w2
      | Outcome.exn e st2 w2 => Outcome.exn e st2 w2
      | Outcome.ok lst2 st2 w2 => Outcome.ok (lst ++ lst2) st2 w2
    else Outcome.ok lst st' w'

/-- Modelled from the spec: chime volume lower bound (`CHIME_VOL_MIN`;
`ring_doorbell/const.py` is not under `src/`, the spec names only a closed
range). -/
def CHIME_VOL_MIN : Int := 0

/-- Modelled from the spec: chime volume upper bound (`CHIME_VOL_MAX`). -/
def CHIME_VOL_MAX : Int := 10

/-- Modelled from the spec: doorbell volume lower bound (`DOORBELL_VOL_MIN`). -/
def DOORBELL_VOL_MIN : Int := 0

/-- Modelled from the spec: doorbell volume upper bound (`DOORBELL_VOL_MAX`). -/
def DOORBELL_VOL_MAX : Int := 11

/-- Python `isinstance(value, int)` (a Python `bool` is an `int`). -/
def isPyInt : JVal → Bool
  | JVal.int _ => true
  | JVal.bool _ => true
  | _ => false

/-- Numeric value of a Python integer (`True` is 1, `False` is 0). -/
def pyIntVal : JVal → Int
  | JVal.int n => n
  | JVal.bool b => if b then 1 else 0
  | _ => 0

/-- URL of the per-chime settings endpoint (`CHIMES_ENDPOINT` formatted with
the account id). -/
def chimesUrl (aid : JVal) : String :=
  API_URI ++ "/clients_api/chimes/" ++ pyStr aid

/-- URL of the per-doorbell settings endpoint (`DOORBELLS_ENDPOINT` formatted
with the account id). -/
def doorbellsUrl (aid : JVal) : String :=
  API_URI ++ "/clients_api/doorbots/" ++ pyStr aid

/-- The `RingChime.volume` setter: reject a value that is not an `int` or is
outside `[CHIME_VOL_MIN, CHIME_VOL_MAX]` by returning `False` untouched;
otherwise PUT the parameter bundle through `query` and re-fetch the
descriptor, returning `True`. -/
def RingChime.set_volume (dev : Device) (st : RingClient) (w : World) (value : JVal) :
    Outcome (Device × Bool) :=
  if isPyInt value ∧ CHIME_VOL_MIN ≤ pyIntVal value ∧ pyIntVal value ≤ CHIME_VOL_MAX then
    match RingGeneric.account_id dev with
    | .error e => Outcome.exn e st w
    | .ok aid =>
      match RingClient.query st w (chimesUrl aid) RETRY_TOKEN Method.PUT false
          (some [("chime[description]", dev.name),
                 ("chime[settings][volume]", JVal.str (pyStr value))]) with
      | Outcome.exn e st' w' => Outcome.exn e st' w'
      | Outcome.ok _ st' w' =>
        match RingGeneric.get_attrs dev st' w' with
        | Outcome.exn e st2 w2 => Outcome.exn e st2 w2
        | Outcome.ok (dev2, _) st2 w2 => Outcome.ok (dev2, true) st2 w2
  else Outcome.ok (dev, false) st w

/-- The `RingDoorBell.volume` setter: reject a value that is not an `int` or
is outside `[DOORBELL_VOL_MIN, DOORBELL_VOL_MAX]` by returning `False`
untouched; otherwise PUT the parameter bundle through `query` and re-fetch
the descriptor, returning `True`. -/
def RingDoorBell.set_volume (dev : Device) (st : RingClient) (w : World) (value : JVal) :
    Outcome (Device × Bool) :=
  if isPyInt value ∧ DOORBELL_VOL_MIN ≤ pyIntVal value ∧ pyIntVal value ≤ DOORBELL_VOL_MAX then
    match RingGeneric.account_id dev with
    | .error e => Outcome.exn e st w
    | .ok aid =>
      match RingClient.query st w (doorbellsUrl aid) RETRY_TOKEN Method.PUT false
          (some [("doorbot[description]", dev.name),
                 ("doorbot[settings][doorbell_volume]", JVal.str (pyStr value))]) with
      | Outcome.exn e st' w' => Outcome.exn e st' w'
      | Outcome.ok _ st' w' =>
        match RingGeneric.get_attrs dev st' w' with
        | Outcome.exn e st2 w2 => Outcome.exn e st2 w2
        | Outcome.ok (dev2, _) st2 w2 => Outcome.ok (dev2, true) st2 w2
  else Outcome.ok (dev, false) st w

/-- URL of the doorbell history endpoint (`URL_DOORBELL_HISTORY` formatted
with the account id). -/
def doorbellHistoryUrl (aid : JVal) : String :=
  API_URI ++ "/clients_api/doorbots/" ++ pyStr aid ++ "/history"

/-- The per-entry body of the `RingDoorBell.history` loop:
`datetime.strptime(entry['created_at'], ...)` (a `TypeError` on a non-string
timestamp), then the timezone pipeline — an external collaborator per the
spec, abstracted as `conv` — and the in-place write
`entry['created_at'] = converted`. -/
def convertEntries (conv : String → Except PyErr JVal) :
    List JVal → Except PyErr (List JVal)
  | [] => Except.ok []
  | entry :: rest =>
    match pySubscript entry "created_at" with
    | .error e => Except.error e
    | .ok (JVal.str s) =>
      match conv s with
      | .error e => Except.error e
      | .ok d =>
        match entry with
        | JVal.obj fs =>
          match convertEntries conv rest with
          | .error e => Except.error e
          | .ok tail => Except.ok (JVal.obj (dset fs "created_at" d) :: tail)
        | _ => Except.error PyErr.typeError
    | .ok _ => Except.error PyErr.typeError

/-- `RingDoorBell.history(limit, timezone)`: query the history endpoint with
`extra_params = ('limit': str(limit))`, then iterate the result converting
each entry's timestamp in place — `for entry in response` raises `TypeError`
when `query` soft-failed and returned `None` (an empty dict or empty string
body iterates zero entries and is returned unchanged; the raw-response case
is unreachable since `raw` is false). -/
def RingDoorBell.history (conv : String → Except PyErr JVal) (dev : Device)
    (st : RingClient) (w : World) (limit : Int) : Outcome JVal :=
  match RingGeneric.account_id dev with
  | .error e => Outcome.exn e st w
  | .ok aid =>
    match RingClient.query st w (doorbellHistoryUrl aid) RETRY_TOKEN Method.GET false
        (some [("limit", JVal.str (toString limit))]) with
    | Outcome.exn e st' w' => Outcome.exn e st' w'
    | Outcome.ok res st' w' =>
      match res with
      | some (QueryResult.json (JVal.arr xs)) =>
        match convertEntries conv xs with
        | .error e => Outcome.exn e st' w'
        | .ok ys => Outcome.ok (JVal.arr ys) st' w'
      | some (QueryResult.json (JVal.obj [])) => Outcome.ok (JVal.obj []) st' w'
      | some (QueryResult.json (JVal.str "")) => Outcome.ok (JVal.str "") st' w'
      | _ => Outcome.exn PyErr.typeError st' w'


/-- Setting a key leaves the lookups of every other key unchanged. -/
lemma dget_dset_ne (k k' : String) (v : JVal) (h : k ≠ k') :
    ∀ d : Dict, dget (dset d k v) k' = dget d k' := by
  intro d
  induction d with
  | nil => simp [dset, dget, h]
  | cons kv rest ih =>
    by_cases hk : kv.fst = k
    · simp [dset, hk, dget, h]
    · simp only [dset, if_neg hk, dget]
      by_cases hk' : kv.fst = k'
      · simp [hk']
      · simp [hk', ih]

/-- Merging a dictionary that does not mention a key leaves that key's
lookup unchanged. -/
lemma dget_dupdate_notin (k : String) :
    ∀ e d : Dict, (∀ kv ∈ e, kv.fst ≠ k) → dget (dupdate d e) k = dget d k := by
  intro e
  induction e with
  | nil => intro d _; rfl
  | cons kv rest ih =>
    intro d hk
    have h1 : kv.fst ≠ k := hk kv (by simp)
    have h2 : ∀ kv' ∈ rest, kv'.fst ≠ k := fun kv' h => hk kv' (by simp [h])
    simp only [dupdate, List.foldl_cons]
    have := ih (dset d kv.fst kv.snd) h2
    simp only [dupdate] at this
    rw [this, dget_dset_ne kv.fst k kv.snd h1]

/-- The session invariant claimed by the spec: whenever the session holds a
parameter set, its `auth_token` entry is the stored token. -/
def tokenSync (st : RingClient) : Prop :=
  ∀ p, st.params = some p → dget p "auth_token" = some st.token

/-- A change of the connectivity flag alone preserves the invariant. -/
lemma tokenSync_set_connected (st : RingClient) (b : Option Bool) (h : tokenSync st) :
    tokenSync { st with is_connected := b } := h

/-- The login loop preserves the token/parameter synchronisation invariant:
every outcome's state (success, fall-through or raise) satisfies it. -/
lemma authLoop_tokenSync :
    ∀ (fuel : Nat) (st : RingClient) (w : World) (last : Option HResp), tokenSync st →
      tokenSync (RingClient.authLoop st w fuel last).state := by
  intro fuel
  induction fuel with
  | zero =>
    intro st w last h
    cases last with
    | none => simpa [RingClient.authLoop, Outcome.state, tokenSync] using h
    | some r =>
      by_cases hr : 400 ≤ r.status
      · simpa [RingClient.authLoop, Outcome.state, hr, tokenSync] using h
      · simpa [RingClient.authLoop, Outcome.state, hr, tokenSync] using h
  | succ fuel ih =>
    intro st w last h
    by_cases h201 : (w.transport w.calls).status = 201
    · cases hex : extractAuth (w.transport w.calls).json with
      | error e => simpa [RingClient.authLoop, h201, hex, Outcome.state] using h
      | ok fit =>
        obtain ⟨f, i, t⟩ := fit
        simp only [RingClient.authLoop, h201, if_pos, hex, Outcome.state]
        intro p hp
        simp only [Option.some.injEq] at hp
        subst hp
        rfl
    · simpa [RingClient.authLoop, h201] using
        ih st { w with calls := w.calls + 1 } (some (w.transport w.calls)) h

/-- `_authenticate` preserves the token/parameter invariant. -/
lemma authenticate_tokenSync (st : RingClient) (w : World) (attempts : Nat)
    (h : tokenSync st) :
    tokenSync (RingClient.authenticate st w attempts).state :=
  authLoop_tokenSync (attempts + 1) st { w with auths := w.auths + 1 } none h

/-- `mergeParams` preserves the invariant when the extra parameters do not
bind `auth_token`; the merged dictionary it hands to the dispatch also has
the live token under `auth_token`. -/
lemma mergeParams_tokenSync (st st1 : RingClient) (extra : Option Dict) (p : Dict)
    (hextra : ∀ e, extra = some e → ∀ kv ∈ e, kv.fst ≠ "auth_token")
    (h : tokenSync st) (hm : mergeParams st extra = Except.ok (st1, p)) :
    tokenSync st1 ∧ st1.token = st.token := by
  cases extra with
  | none =>
    cases hp : st.params with
    | none => simp [mergeParams, hp] at hm
    | some q =>
      simp only [mergeParams, hp] at hm
      cases hm
      exact ⟨h, rfl⟩
  | some e =>
    by_cases he : e.isEmpty
    · cases hp : st.params with
      | none => simp [mergeParams, hp, he] at hm
      | some q =>
        simp only [mergeParams, hp, he, if_pos] at hm
        cases hm
        exact ⟨h, rfl⟩
    · cases hp : st.params with
      | none => simp [mergeParams, hp, he] at hm
      | some q =>
        simp only [mergeParams, hp, he, if_neg] at hm
        cases hm
        refine ⟨?_, rfl⟩
        intro p' hp'
        simp only [Option.some.injEq] at hp'
        subst hp'
        rw [dget_dupdate_notin "auth_token" e q (hextra e rfl)]
        exact h q hp

/-- The query loop preserves the token/parameter invariant provided the extra
parameters do not bind `auth_token`. -/
lemma queryLoop_tokenSync (method : Method) (raw : Bool) (extra : Option Dict)
    (hextra : ∀ e, extra = some e → ∀ kv ∈ e, kv.fst ≠ "auth_token") :
    ∀ (fuel : Nat) (st : RingClient) (w : World), tokenSync st →
      tokenSync (RingClient.queryLoop method raw extra fuel st w).state := by
  intro fuel
  induction fuel with
  | zero => intro st w h; simpa [RingClient.queryLoop, Outcome.state] using h
  | succ fuel ih =>
    intro st w h
    cases hm : mergeParams st extra with
    | error e => simpa [RingClient.queryLoop, hm, Outcome.state] using h
    | ok s1p =>
      obtain ⟨st1, p⟩ := s1p
      obtain ⟨h1, -⟩ := mergeParams_tokenSync st st1 extra p hextra h hm
      by_cases h401 : (w.transport w.calls).status = 401
      · have hsync2 : tokenSync { st1 with is_connected := some false } := h1
        cases hauth : RingClient.authenticate { st1 with is_connected := some false }
            { w with calls := w.calls + 1, qparams := w.qparams ++ [p] } RETRY_TOKEN with
        | exn e st2 w2 =>
          have := authenticate_tokenSync { st1 with is_connected := some false }
            { w with calls := w.calls + 1, qparams := w.qparams ++ [p] } RETRY_TOKEN hsync2
          rw [hauth] at this
          simpa [RingClient.queryLoop, hm, h401, hauth, Outcome.state] using this
        | ok v st2 w2 =>
          have := authenticate_tokenSync { st1 with is_connected := some false }
            { w with calls := w.calls + 1, qparams := w.qparams ++ [p] } RETRY_TOKEN hsync2
          rw [hauth] at this
          simp only [Outcome.state] at this
          simpa [RingClient.queryLoop, hm, h401, hauth] using ih st2 w2 this
      · by_cases h200 : (w.transport w.calls).status = 200 ∨ (w.transport w.calls).status = 204
        · by_cases hraw : raw
          · simpa [RingClient.queryLoop, hm, h401, h200, hraw, Outcome.state] using h1
          · by_cases hget : method = Method.GET
            · simpa [RingClient.queryLoop, hm, h401, h200, hraw, hget, Outcome.state] using h1
            · simpa [RingClient.queryLoop, hm, h401, h200, hraw, hget, Outcome.state] using h1
        · simpa [RingClient.queryLoop, hm, h401, h200] using
            ih st1 { w with calls := w.calls + 1, qparams := w.qparams ++ [p] } h1

/-- `Ring.query` preserves the token/parameter invariant provided the extra
parameters do not bind `auth_token`. -/
lemma query_tokenSync (st : RingClient) (w : World) (url : String) (attempts : Nat)
    (method : Method) (raw : Bool) (extra : Option Dict)
    (hextra : ∀ e, extra = some e → ∀ kv ∈ e, kv.fst ≠ "auth_token")
    (h : tokenSync st) :
    tokenSync (RingClient.query st w url attempts method raw extra).state := by
  by_cases hdbg : st.debug && !(truthy st.is_connected)
  · cases hauth : RingClient.authenticate st w RETRY_TOKEN with
    | exn e st' w' =>
      have := authenticate_tokenSync st w RETRY_TOKEN h
      rw [hauth] at this
      simpa [RingClient.query, hdbg, hauth, Outcome.state] using this
    | ok v st' w' =>
      have := authenticate_tokenSync st w RETRY_TOKEN h
      rw [hauth] at this
      simp only [Outcome.state] at this
      simpa [RingClient.query, hdbg, hauth] using
        queryLoop_tokenSync method raw extra hextra (attempts + 1) st' w' this
  · simpa [RingClient.query, hdbg] using
      queryLoop_tokenSync method raw extra hextra (attempts + 1) st w h

/-- A transport none of whose responses carries status 200, 204 or 401. -/
def neverQualifies (tr : Nat → HResp) : Prop :=
  ∀ n, (tr n).status ≠ 200 ∧ (tr n).status ≠ 204 ∧ (tr n).status ≠ 401

/-- Exhaustion of the query loop without extra parameters: against a
transport that never returns a qualifying status, the loop runs all `fuel`
iterations, dispatches the unchanged parameter set each time, leaves the
session untouched and returns `None` without raising. -/
lemma queryLoop_exhaust (method : Method) (raw : Bool) (p : Dict) :
    ∀ (fuel : Nat) (st : RingClient) (w : World), st.params = some p →
      neverQualifies w.transport →
      RingClient.queryLoop method raw none fuel st w =
        Outcome.ok none st
          { w with calls := w.calls + fuel, qparams := w.qparams ++ List.replicate fuel p } := by
  intro fuel
  induction fuel with
  | zero => intro st w hp hbad; simp [RingClient.queryLoop]
  | succ fuel ih =>
    intro st w hp hbad
    obtain ⟨h200, h204, h401⟩ := hbad w.calls
    simp only [RingClient.queryLoop, mergeParams, hp]
    rw [if_neg h401, if_neg (by rintro (h | h) <;> simp_all)]
    rw [ih st { w with calls := w.calls + 1, qparams := w.qparams ++ [p] } hp hbad]
    have harith : w.calls + 1 + fuel = w.calls + (fuel + 1) := by omega
    simp [harith, List.replicate_succ, List.append_assoc]

/-- Exhaustion of the query loop with arbitrary extra parameters: as long as
the session holds some parameter set, merging cannot raise, so against a
never-qualifying transport the loop returns `None` without raising, with the
session still holding a parameter set. -/
lemma queryLoop_exhaust_extra (method : Method) (raw : Bool) (extra : Option Dict) :
    ∀ (fuel : Nat) (st : RingClient) (w : World), st.params.isSome →
      neverQualifies w.transport →
      ∃ st' w', RingClient.queryLoop method raw extra fuel st w = Outcome.ok none st' w' := by
  intro fuel
  induction fuel with
  | zero => intro st w hp hbad; exact ⟨st, w, by simp [RingClient.queryLoop]⟩
  | succ fuel ih =>
    intro st w hp hbad
    obtain ⟨p, hp⟩ := Option.isSome_iff_exists.mp hp
    obtain ⟨h200, h204, h401⟩ := hbad w.calls
    have hmerge : ∃ st1 q, mergeParams st extra = Except.ok (st1, q) ∧ st1.params.isSome := by
      cases extra with
      | none => exact ⟨st, p, by simp [mergeParams, hp], by simp [hp]⟩
      | some e =>
        by_cases he : e.isEmpty
        · exact ⟨st, p, by simp [mergeParams, hp, he], by simp [hp]⟩
        · exact ⟨{ st with params := some (dupdate p e) }, dupdate p e,
            by simp [mergeParams, hp, he], by simp⟩
    obtain ⟨st1, q, hm, hp1⟩ := hmerge
    obtain ⟨st', w', hrec⟩ :=
      ih st1 { w with calls := w.calls + 1, qparams := w.qparams ++ [q] } hp1 hbad
    refine ⟨st', w', ?_⟩
    simp only [RingClient.queryLoop, hm]
    rw [if_neg h401, if_neg (by rintro (h | h) <;> simp_all)]
    exact hrec

/-- First-dispatch success of the query loop: when the merge succeeds and the
first response has status 200, the loop returns after one dispatch carrying
the merged parameter set. -/
lemma queryLoop_first200 (method : Method) (raw : Bool) (extra : Option Dict)
    (fuel : Nat) (st st1 : RingClient) (w : World) (p : Dict)
    (hm : mergeParams st extra = Except.ok (st1, p))
    (h200 : (w.transport w.calls).status = 200) :
    ∃ r, RingClient.queryLoop method raw extra (fuel + 1) st w =
      Outcome.ok r st1 { w with calls := w.calls + 1, qparams := w.qparams ++ [p] } := by
  simp only [RingClient.queryLoop, hm]
  rw [if_neg (by simp [h200]), if_pos (Or.inl h200)]
  by_cases hraw : raw
  · exact ⟨some (QueryResult.raw (w.transport w.calls)), by simp [hraw]⟩
  · by_cases hget : method = Method.GET
    · exact ⟨some (QueryResult.json (w.transport w.calls).json), by simp [hraw, hget]⟩
    · exact ⟨none, by simp [hraw, hget]⟩

/-- First-dispatch success for a non-raw GET: the JSON body of the first
response is returned. -/
lemma queryLoop_first200_get (extra : Option Dict) (fuel : Nat)
    (st st1 : RingClient) (w : World) (p : Dict)
    (hm : mergeParams st extra = Except.ok (st1, p))
    (h200 : (w.transport w.calls).status = 200) :
    RingClient.queryLoop Method.GET false extra (fuel + 1) st w =
      Outcome.ok (some (QueryResult.json (w.transport w.calls).json)) st1
        { w with calls := w.calls + 1, qparams := w.qparams ++ [p] } := by
  simp only [RingClient.queryLoop, hm]
  rw [if_neg (by simp [h200]), if_pos (Or.inl h200)]
  simp

/-- Soft completion of the login loop: when no response is a 201 and none is
an HTTP error, the loop runs all its iterations, sets `is_connected` to
`False`, and the final `raise_for_status` is a no-op, so `_authenticate`
returns `None` without raising. -/
lemma authLoop_soft :
    ∀ (fuel : Nat) (st : RingClient) (w : World) (last : Option HResp),
      (∀ n, (w.transport n).status ≠ 201 ∧ (w.transport n).status < 400) →
      (match last with | some r => r.status < 400 | none => 0 < fuel) →
      RingClient.authLoop st w fuel last =
        Outcome.ok none { st with is_connected := some false }
          { w with calls := w.calls + fuel } := by
  intro fuel
  induction fuel with
  | zero =>
    intro st w last h hlast
    cases last with
    | none => exact absurd hlast (by simp)
    | some r =>
      simp only at hlast
      have hr : ¬ 400 ≤ r.status := by omega
      simp [RingClient.authLoop, hr]
  | succ fuel ih =>
    intro st w last h hlast
    obtain ⟨h201, herr⟩ := h w.calls
    rw [show RingClient.authLoop st w (fuel + 1) last =
        RingClient.authLoop st { w with calls := w.calls + 1 } fuel (some (w.transport w.calls))
      from by simp [RingClient.authLoop, h201]]
    rw [ih st { w with calls := w.calls + 1 } (some (w.transport w.calls)) h (by simpa using herr)]
    have harith : w.calls + 1 + fuel = w.calls + (fuel + 1) := by omega
    simp [harith]

/-- A well-formed successful login response: whenever the status is 201, the
body carries a profile whose extraction succeeds with a non-null
authentication token. -/
def goodLogin (r : HResp) : Prop :=
  r.status = 201 →
    ∃ f i t, extractAuth r.json = Except.ok (f, i, t) ∧ t ≠ JVal.null

/-- Dichotomy of the login loop over a transport each of whose responses is
either a well-formed 201 or an HTTP error: the loop either succeeds — with
the connectivity flag set and a non-null token — or runs all its iterations
and raises the final HTTP error, having first set the flag to `False` and
leaving the stored token untouched. -/
lemma authLoop_dichotomy :
    ∀ (fuel : Nat) (st : RingClient) (w : World) (last : Option HResp),
      (∀ n, (w.transport n).status = 201 ∨ 400 ≤ (w.transport n).status) →
      (∀ n, goodLogin (w.transport n)) →
      (match last with | some r => 400 ≤ r.status | none => 0 < fuel) →
      (∃ st' w', RingClient.authLoop st w fuel last = Outcome.ok (some true) st' w' ∧
         st'.is_connected = some true ∧ st'.token ≠ JVal.null) ∨
      (∃ s st' w', RingClient.authLoop st w fuel last = Outcome.exn (PyErr.httpError s) st' w' ∧
         400 ≤ s ∧ st'.is_connected = some false ∧ st'.token = st.token ∧
         w'.calls = w.calls + fuel ∧ w'.auths = w.auths) := by
  intro fuel
  induction fuel with
  | zero =>
    intro st w last hdi hgood hlast
    cases last with
    | none => exact absurd hlast (by simp)
    | some r =>
      simp only at hlast
      right
      exact ⟨r.status, { st with is_connected := some false }, w,
        by simp [RingClient.authLoop, hlast], hlast, rfl, rfl, by simp, rfl⟩
  | succ fuel ih =>
    intro st w last hdi hgood hlast
    rcases hdi w.calls with h201 | herr
    · obtain ⟨f, i, t, hex, ht⟩ := hgood w.calls h201
      have heq : RingClient.authLoop st w (fuel + 1) last =
          Outcome.ok (some true)
            { st with features := f, _id := i, is_connected := some true, token := t,
                      params := some [("api_version", API_VERSION), ("auth_token", t)] }
            { w with calls := w.calls + 1 } := by
        simp [RingClient.authLoop, h201, hex]
      exact Or.inl ⟨_, _, heq, rfl, ht⟩
    · have h201 : (w.transport w.calls).status ≠ 201 := by omega
      rw [show RingClient.authLoop st w (fuel + 1) last =
          RingClient.authLoop st { w with calls := w.calls + 1 } fuel (some (w.transport w.calls))
        from by simp [RingClient.authLoop, h201]]
      rcases ih st { w with calls := w.calls + 1 } (some (w.transport w.calls)) hdi hgood
          (by simpa using herr) with hl | hr
      · exact Or.inl hl
      · obtain ⟨s, st', w', heq, hs, hc, htok, hcalls, hauths⟩ := hr
        right
        exact ⟨s, st', w', heq, hs, hc, htok, by simp at hcalls; omega, hauths⟩

/-- Witness transport: every response has the non-error, non-201 status 200. -/
def trSoft : Nat → HResp := fun _ => { status := 200, json := JVal.null }

/-- Witness transport: every response is the HTTP error 500. -/
def trErr : Nat → HResp := fun _ => { status := 500, json := JVal.null }

/-- Witness transport: 401, then a well-formed 201 login response, then 200
with a payload. -/
def trRetry : Nat → HResp := fun n =>
  if n = 0 then { status := 401, json := JVal.null }
  else if n = 1 then
    { status := 201,
      json := JVal.obj
        [("profile", JVal.obj
          [("features", JVal.null), ("id", JVal.int 5),
           ("authentication_token", JVal.str "fresh")])] }
  else { status := 200, json := JVal.str "payload" }

/-- Witness transport: every response is a 200 whose body is an empty JSON
object (no family key). -/
def trEmptyObj : Nat → HResp := fun _ => { status := 200, json := JVal.obj [] }

/-- Witness transport: every response is a 200 whose body holds an empty
`chimes` sub-list. -/
def trChimes : Nat → HResp :=
  fun _ => { status := 200, json := JVal.obj [("chimes", JVal.arr [])] }

/-- A fresh world around a given transport. -/
def mkWorld (tr : Nat → HResp) : World :=
  { transport := tr, calls := 0, auths := 0, qparams := [] }

/-- Parameter set of the connected witness session. -/
def pFix : Dict := [("api_version", API_VERSION), ("auth_token", JVal.str "tok")]

/-- A connected witness session in non-debug mode. -/
def stFix : RingClient :=
  { features := JVal.null, is_connected := some true, _id := JVal.null,
    token := JVal.str "tok", params := some pFix, debug := false }

/-- A chime handle whose descriptor is unset. -/
def devFix : Device := { attrs := JVal.null, family := "chimes", name := JVal.str "Front" }

/-- A doorbell handle holding a minimal descriptor with an account id. -/
def devObjFix : Device :=
  { attrs := JVal.obj [("id", JVal.int 1)], family := "doorbots", name := JVal.str "Front" }

/-- Claim C1, counterexample: against a transport whose every login response
has the non-error, non-201 status 200, constructing the client completes
without raising any error, yet leaves the session disconnected with a null
token — neither arm of the claimed alternative ("connected with a non-null
token, or raises the HTTP failure") holds. -/
theorem claim_C1_counterexample :
    (RingClient.init "user" "secret" false (mkWorld trSoft)).isExn = false ∧
    (RingClient.init "user" "secret" false (mkWorld trSoft)).state.is_connected = some false ∧
    (RingClient.init "user" "secret" false (mkWorld trSoft)).state.token = JVal.null :=
  ⟨rfl, rfl, rfl⟩

/-- Claim C1 (amended): provided every login response is either a well-formed
201 (profile extraction succeeds with a non-null token) or an HTTP failure
(status at least 400), constructing a Ring client either terminates connected
with a non-null token, or performs exactly `RETRY_TOKEN + 1` login attempts,
sets `is_connected` to `False` first, and raises the final HTTP failure to
the caller rather than swallowing it. -/
theorem claim_C1 (username password : String) (debug : Bool) (w : World)
    (hdi : ∀ n, (w.transport n).status = 201 ∨ 400 ≤ (w.transport n).status)
    (hgood : ∀ n, goodLogin (w.transport n)) :
    (∃ st' w', RingClient.init username password debug w = Outcome.ok (some true) st' w' ∧
       st'.is_connected = some true ∧ st'.token ≠ JVal.null) ∨
    (∃ s st' w', RingClient.init username password debug w =
         Outcome.exn (PyErr.httpError s) st' w' ∧ 400 ≤ s ∧
       st'.is_connected = some false ∧ st'.token = JVal.null ∧
       w'.calls = w.calls + (RETRY_TOKEN + 1)) := by
  have h := authLoop_dichotomy (RETRY_TOKEN + 1)
      { features := JVal.null, is_connected := none, _id := JVal.null, token := JVal.null,
        params := none, debug := debug }
      { w with auths := w.auths + 1 } none hdi hgood (by simp)
  rcases h with hl | hr
  · exact Or.inl hl
  · obtain ⟨s, st', w', heq, hs, hc, htok, hcalls, -⟩ := hr
    exact Or.inr ⟨s, st', w', heq, hs, hc, htok, hcalls⟩

/-- Claim C1, witness at a transport answering 500 to every login attempt. -/
theorem claim_C1_witness :
    (∃ st' w', RingClient.init "user" "secret" false (mkWorld trErr) =
         Outcome.ok (some true) st' w' ∧
       st'.is_connected = some true ∧ st'.token ≠ JVal.null) ∨
    (∃ s st' w', RingClient.init "user" "secret" false (mkWorld trErr) =
         Outcome.exn (PyErr.httpError s) st' w' ∧ 400 ≤ s ∧
       st'.is_connected = some false ∧ st'.token = JVal.null ∧
       w'.calls = (mkWorld trErr).calls + (RETRY_TOKEN + 1)) :=
  claim_C1 "user" "secret" false (mkWorld trErr)
    (by intro n; right; simp [mkWorld, trErr])
    (by intro n hn; simp [mkWorld, trErr] at hn)

/-- Claim C9: the login handshake treats only status 201 as success; against
a transport whose every response has a non-error, non-201 status, the
constructor completes without raising, leaving `is_connected = False` and a
null token after all `RETRY_TOKEN + 1` attempts (the final
`raise_for_status` is a no-op on a non-error response). -/
theorem claim_C9 (username password : String) (debug : Bool) (w : World)
    (h : ∀ n, (w.transport n).status ≠ 201 ∧ (w.transport n).status < 400) :
    RingClient.init username password debug w =
      Outcome.ok none
        { features := JVal.null, is_connected := some false, _id := JVal.null,
          token := JVal.null, params := none, debug := debug }
        { w with auths := w.auths + 1, calls := w.calls + (RETRY_TOKEN + 1) } :=
  authLoop_soft (RETRY_TOKEN + 1)
    { features := JVal.null, is_connected := none, _id := JVal.null, token := JVal.null,
      params := none, debug := debug }
    { w with auths := w.auths + 1 } none h (by simp)

/-- Claim C9, witness at a transport answering 200 to every login attempt. -/
theorem claim_C9_witness :
    RingClient.init "user" "secret" false (mkWorld trSoft) =
      Outcome.ok none
        { features := JVal.null, is_connected := some false, _id := JVal.null,
          token := JVal.null, params := none, debug := false }
        { transport := trSoft, calls := RETRY_TOKEN + 1, auths := 1, qparams := [] } :=
  claim_C9 "user" "secret" false (mkWorld trSoft)
    (by intro n; constructor <;> simp [mkWorld, trSoft])

/-- Claim C2: against a transport that never returns 200, 204 or 401, a
default `query(url)` (GET, non-raw, no extra parameters) performs exactly
`R + 1` dispatch attempts — each carrying the unchanged parameter set — and
then returns `None` without raising, leaving the session untouched and
issuing no further calls. -/
theorem claim_C2 (st : RingClient) (w : World) (url : String) (R : Nat) (p : Dict)
    (hd : st.debug = false) (hp : st.params = some p)
    (hbad : neverQualifies w.transport) :
    RingClient.query st w url R Method.GET false none =
      Outcome.ok none st
        { w with calls := w.calls + (R + 1),
                 qparams := w.qparams ++ List.replicate (R + 1) p } := by
  have hdbg : (st.debug && !(truthy st.is_connected)) = false := by simp [hd]
  simpa [RingClient.query, hdbg] using queryLoop_exhaust Method.GET false p (R + 1) st w hp hbad

/-- Claim C2, witness at the all-500 transport and the default retry count. -/
theorem claim_C2_witness :
    RingClient.query stFix (mkWorld trErr) "url" RETRY_TOKEN Method.GET false none =
      Outcome.ok none stFix
        { transport := trErr, calls := RETRY_TOKEN + 1, auths := 0,
          qparams := List.replicate (RETRY_TOKEN + 1) pFix } :=
  claim_C2 stFix (mkWorld trErr) "url" RETRY_TOKEN pFix rfl rfl
    (by intro n; refine ⟨?_, ?_, ?_⟩ <;> simp [mkWorld, trErr])

/-- Claim C3: against a transport whose first query dispatch returns 401 and
whose second returns 200 — with the intervening login attempt answered by a
well-formed 201 — a non-raw GET `query` returns the JSON body of the second
dispatch after exactly one internal re-authentication (the `auths` counter
grows by one, three HTTP requests in total), and the session's connectivity
flag ends `True` with the refreshed token stored. -/
theorem claim_C3 (st : RingClient) (w : World) (url : String) (R : Nat) (p : Dict)
    (f i t : JVal)
    (hd : st.debug = false) (hp : st.params = some p)
    (h401 : (w.transport w.calls).status = 401)
    (h201 : (w.transport (w.calls + 1)).status = 201)
    (hex : extractAuth (w.transport (w.calls + 1)).json = Except.ok (f, i, t))
    (h200 : (w.transport (w.calls + 1 + 1)).status = 200) :
    ∃ st' w', RingClient.query st w url (R + 1) Method.GET false none =
        Outcome.ok (some (QueryResult.json (w.transport (w.calls + 1 + 1)).json)) st' w' ∧
      st'.is_connected = some true ∧ st'.token = t ∧
      w'.auths = w.auths + 1 ∧ w'.calls = w.calls + 3 := by
  have hdbg : (st.debug && !(truthy st.is_connected)) = false := by simp [hd]
  have heq : RingClient.query st w url (R + 1) Method.GET false none =
      Outcome.ok (some (QueryResult.json (w.transport (w.calls + 1 + 1)).json))
        { st with features := f, _id := i, is_connected := some true, token := t,
                  params := some [("api_version", API_VERSION), ("auth_token", t)] }
        { w with calls := w.calls + 1 + 1 + 1, auths := w.auths + 1,
                 qparams := w.qparams ++ [p] ++
                   [[("api_version", API_VERSION), ("auth_token", t)]] } := by
    simp [RingClient.query, RingClient.queryLoop, mergeParams, RingClient.authenticate,
          RingClient.authLoop, hdbg, hp, h401, h201, hex, h200]
  exact ⟨_, _, heq, rfl, rfl, rfl, show w.calls + 1 + 1 + 1 = w.calls + 3 by omega⟩

/-- Claim C3, witness at the 401-then-201-then-200 transport. -/
theorem claim_C3_witness :
    ∃ st' w', RingClient.query stFix (mkWorld trRetry) "url" (2 + 1) Method.GET false none =
        Outcome.ok (some (QueryResult.json
          ((mkWorld trRetry).transport ((mkWorld trRetry).calls + 1 + 1)).json)) st' w' ∧
      st'.is_connected = some true ∧ st'.token = JVal.str "fresh" ∧
      w'.auths = (mkWorld trRetry).auths + 1 ∧ w'.calls = (mkWorld trRetry).calls + 3 :=
  claim_C3 stFix (mkWorld trRetry) "url" 2 pFix JVal.null (JVal.int 5) (JVal.str "fresh")
    rfl rfl rfl rfl rfl rfl

/-- Claim C4: the token synchronisation invariant — whenever the session
holds a parameter set, its `auth_token` entry equals the stored token — is
preserved by `_authenticate` (on success both are replaced together before
any further request; on failure neither changes) and by every `query`
(including its internal re-authentications and in-place merges), provided
the extra parameters do not themselves bind `auth_token`, as no caller in
the code does. -/
theorem claim_C4 (st : RingClient) (w : World) (url : String) (attempts : Nat)
    (method : Method) (raw : Bool) (extra : Option Dict)
    (hsync : tokenSync st)
    (hextra : ∀ e, extra = some e → ∀ kv ∈ e, kv.fst ≠ "auth_token") :
    tokenSync (RingClient.authenticate st w attempts).state ∧
    tokenSync (RingClient.query st w url attempts method raw extra).state :=
  ⟨authenticate_tokenSync st w attempts hsync,
   query_tokenSync st w url attempts method raw extra hextra hsync⟩

/-- Claim C4, witness: the invariant holds after an authentication and after
a query with a `limit` extra parameter, starting from the connected witness
session. -/
theorem claim_C4_witness :
    tokenSync (RingClient.authenticate stFix (mkWorld trErr) RETRY_TOKEN).state ∧
    tokenSync (RingClient.query stFix (mkWorld trErr) "url" RETRY_TOKEN Method.GET false
      (some [("limit", JVal.str "5")])).state :=
  claim_C4 stFix (mkWorld trErr) "url" RETRY_TOKEN Method.GET false
    (some [("limit", JVal.str "5")])
    (by intro p hp; simp only [stFix] at hp; simp only [Option.some.injEq] at hp;
        subst hp; rfl)
    (by intro e he kv hkv; simp only [Option.some.injEq] at he; subst he;
        simp only [List.mem_singleton] at hkv; subst hkv; decide)

/-- Claim C5: when the first dispatch succeeds, a `query` with a non-empty
`extra_params` merges the extra parameters into the session's persistent
parameter set — the session afterwards holds the merged set, and the merged
set is what was dispatched — while a `query` without `extra_params` leaves
the persistent set unchanged and dispatches it as is; consequently a
subsequent extra-less call from the post-merge session dispatches the
previously merged parameters. -/
theorem claim_C5 (st : RingClient) (w : World) (url : String) (R : Nat)
    (method : Method) (raw : Bool) (p e : Dict)
    (hd : st.debug = false) (hp : st.params = some p) (he : e ≠ [])
    (h200 : (w.transport w.calls).status = 200) :
    (∃ r w', RingClient.query st w url R method raw (some e) =
        Outcome.ok r { st with params := some (dupdate p e) } w' ∧
      w'.qparams = w.qparams ++ [dupdate p e] ∧ w'.calls = w.calls + 1) ∧
    (∃ r w', RingClient.query st w url R method raw none =
        Outcome.ok r st w' ∧
      w'.qparams = w.qparams ++ [p] ∧ w'.calls = w.calls + 1) ∧
    (∀ (w2 : World) (url2 : String), (w2.transport w2.calls).status = 200 →
      ∃ r w2', RingClient.query { st with params := some (dupdate p e) } w2 url2 R
          method raw none =
        Outcome.ok r { st with params := some (dupdate p e) } w2' ∧
      w2'.qparams = w2.qparams ++ [dupdate p e]) := by
  have hdbg : (st.debug && !(truthy st.is_connected)) = false := by simp [hd]
  have he' : e.isEmpty = false := by
    cases e with
    | nil => exact absurd rfl he
    | cons kv rest => rfl
  refine ⟨?_, ?_, ?_⟩
  · have hm : mergeParams st (some e) =
        Except.ok ({ st with params := some (dupdate p e) }, dupdate p e) := by
      simp [mergeParams, hp, he']
    obtain ⟨r, hr⟩ := queryLoop_first200 method raw (some e) R st _ w _ hm h200
    exact ⟨r, _, by simpa [RingClient.query, hdbg] using hr, rfl, rfl⟩
  · have hm : mergeParams st none = Except.ok (st, p) := by simp [mergeParams, hp]
    obtain ⟨r, hr⟩ := queryLoop_first200 method raw none R st st w p hm h200
    exact ⟨r, _, by simpa [RingClient.query, hdbg] using hr, rfl, rfl⟩
  · intro w2 url2 h200'
    have hdbg2 : (({ st with params := some (dupdate p e) } : RingClient).debug &&
        !(truthy ({ st with params := some (dupdate p e) } : RingClient).is_connected))
          = false := by simp [hd]
    have hm : mergeParams { st with params := some (dupdate p e) } none =
        Except.ok ({ st with params := some (dupdate p e) }, dupdate p e) := by
      simp [mergeParams]
    obtain ⟨r, hr⟩ := queryLoop_first200 method raw none R
      { st with params := some (dupdate p e) } _ w2 _ hm h200'
    exact ⟨r, _, by simpa [RingClient.query, hdbg2] using hr, rfl⟩

/-- Claim C5, witness: merging a `limit` parameter into the connected witness
session against an always-200 transport. -/
theorem claim_C5_witness :
    (∃ r w', RingClient.query stFix (mkWorld trSoft) "url" RETRY_TOKEN Method.GET false
        (some [("limit", JVal.str "5")]) =
        Outcome.ok r { stFix with params := some (dupdate pFix [("limit", JVal.str "5")]) } w' ∧
      w'.qparams = (mkWorld trSoft).qparams ++ [dupdate pFix [("limit", JVal.str "5")]] ∧
      w'.calls = (mkWorld trSoft).calls + 1) ∧
    (∃ r w', RingClient.query stFix (mkWorld trSoft) "url" RETRY_TOKEN Method.GET false none =
        Outcome.ok r stFix w' ∧
      w'.qparams = (mkWorld trSoft).qparams ++ [pFix] ∧
      w'.calls = (mkWorld trSoft).calls + 1) ∧
    (∀ (w2 : World) (url2 : String), (w2.transport w2.calls).status = 200 →
      ∃ r w2', RingClient.query
          { stFix with params := some (dupdate pFix [("limit", JVal.str "5")]) } w2 url2
          RETRY_TOKEN Method.GET false none =
        Outcome.ok r { stFix with params := some (dupdate pFix [("limit", JVal.str "5")]) } w2' ∧
      w2'.qparams = w2.qparams ++ [dupdate pFix [("limit", JVal.str "5")]]) :=
  claim_C5 stFix (mkWorld trSoft) "url" RETRY_TOKEN Method.GET false pFix
    [("limit", JVal.str "5")] rfl rfl (by simp) rfl

/-- Claim C6: both volume setters reject a value that is not a Python `int`
or lies outside the setter's closed volume range by returning `False` while
leaving the device descriptor, the session and the world (hence the call
counters: no network request) untouched. -/
theorem claim_C6 (dev : Device) (st : RingClient) (w : World) :
    (∀ value : JVal,
      ¬ (isPyInt value ∧ CHIME_VOL_MIN ≤ pyIntVal value ∧ pyIntVal value ≤ CHIME_VOL_MAX) →
      RingChime.set_volume dev st w value = Outcome.ok (dev, false) st w) ∧
    (∀ value : JVal,
      ¬ (isPyInt value ∧ DOORBELL_VOL_MIN ≤ pyIntVal value ∧
          pyIntVal value ≤ DOORBELL_VOL_MAX) →
      RingDoorBell.set_volume dev st w value = Outcome.ok (dev, false) st w) := by
  constructor
  · intro value hv
    simp [RingChime.set_volume, hv]
  · intro value hv
    simp [RingDoorBell.set_volume, hv]

/-- Claim C6, witness: an out-of-range integer and a string are both
rejected with `False` and no state change. -/
theorem claim_C6_witness :
    RingChime.set_volume devFix stFix (mkWorld trErr) (JVal.int 99) =
      Outcome.ok (devFix, false) stFix (mkWorld trErr) ∧
    RingDoorBell.set_volume devFix stFix (mkWorld trErr) (JVal.str "loud") =
      Outcome.ok (devFix, false) stFix (mkWorld trErr) :=
  ⟨(claim_C6 devFix stFix (mkWorld trErr)).1 (JVal.int 99) (by decide),
   (claim_C6 devFix stFix (mkWorld trErr)).2 (JVal.str "loud") (by decide)⟩

/-- The world after `fuel` dispatches of an unchanged parameter set. -/
def exhaustWorld (w : World) (fuel : Nat) (p : Dict) : World :=
  { w with calls := w.calls + fuel, qparams := w.qparams ++ List.replicate fuel p }

/-- The world after a single dispatch of the parameter set `p`. -/
def onceWorld (w : World) (p : Dict) : World :=
  { w with calls := w.calls + 1, qparams := w.qparams ++ [p] }

/-- Claim C7, counterexample: when the device-list query succeeds but the
returned JSON object lacks the expected family key, the directory listing
does not return an empty list — iterating the `None` produced by `.get`
raises a `TypeError` that the `except AttributeError` clause does not catch,
so the exception propagates to the caller. -/
theorem claim_C7_counterexample :
    (RingClient.devicesByType "chime" stFix (mkWorld trEmptyObj)).exnOf
      = some PyErr.typeError := rfl

/-- Claim C7 (amended): when the device-list query soft-fails and returns
`None`, the directory listing returns an empty list rather than raising (the
`AttributeError` from `None.get` is swallowed) — for both families; but when
the query returns a JSON object lacking the family key, a `TypeError`
propagates instead of yielding an empty list. -/
theorem claim_C7 (st : RingClient) (w : World) (p : Dict)
    (hd : st.debug = false) (hp : st.params = some p) :
    (neverQualifies w.transport →
      (∃ st' w', RingClient.devicesByType "chime" st w = Outcome.ok [] st' w') ∧
      (∃ st' w', RingClient.devicesByType "doorbell" st w = Outcome.ok [] st' w')) ∧
    (∀ fs : List (String × JVal),
      (w.transport w.calls).status = 200 → (w.transport w.calls).json = JVal.obj fs →
      dget fs "chimes" = none →
      ∃ st' w', RingClient.devicesByType "chime" st w =
        Outcome.exn PyErr.typeError st' w') := by
  have hdbg : (st.debug && !(truthy st.is_connected)) = false := by simp [hd]
  constructor
  · intro hbad
    have hquery : ∀ u : String, RingClient.query st w u RETRY_TOKEN Method.GET false none =
        Outcome.ok none st (exhaustWorld w (RETRY_TOKEN + 1) p) := by
      intro u
      simpa [RingClient.query, hdbg, exhaustWorld] using
        queryLoop_exhaust Method.GET false p (RETRY_TOKEN + 1) st w hp hbad
    have hbranchC : RingClient.devicesBranch "chimes" st w =
        Outcome.exn PyErr.attributeError st (exhaustWorld w (RETRY_TOKEN + 1) p) := by
      simp [RingClient.devicesBranch, hquery]
    have hbranchD : RingClient.devicesBranch "doorbots" st w =
        Outcome.exn PyErr.attributeError st (exhaustWorld w (RETRY_TOKEN + 1) p) := by
      simp [RingClient.devicesBranch, hquery]
    constructor
    · refine ⟨st, exhaustWorld w (RETRY_TOKEN + 1) p, ?_⟩
      simp [RingClient.devicesByType, hbranchC]
    · refine ⟨st, exhaustWorld w (RETRY_TOKEN + 1) p, ?_⟩
      simp [RingClient.devicesByType, hbranchD]
  · intro fs h200 hjson hkey
    have hm : mergeParams st none = Except.ok (st, p) := by simp [mergeParams, hp]
    have hq := queryLoop_first200_get none RETRY_TOKEN st st w p hm h200
    rw [hjson] at hq
    have hquery : RingClient.query st w devicesUrl RETRY_TOKEN Method.GET false none =
        Outcome.ok (some (QueryResult.json (JVal.obj fs))) st (onceWorld w p) := by
      simpa [RingClient.query, hdbg, onceWorld] using hq
    have hbranch : RingClient.devicesBranch "chimes" st w =
        Outcome.exn PyErr.typeError st (onceWorld w p) := by
      simp [RingClient.devicesBranch, hquery, pyGet, hkey, devDescriptions]
    refine ⟨st, onceWorld w p, ?_⟩
    simp [RingClient.devicesByType, hbranch]

/-- Claim C7, witness: the soft-fail arm at the all-500 transport, and the
missing-key arm at the empty-object transport. -/
theorem claim_C7_witness :
    (∃ st' w', RingClient.devicesByType "chime" stFix (mkWorld trErr) =
       Outcome.ok [] st' w') ∧
    (∃ st' w', RingClient.devicesByType "chime" stFix (mkWorld trEmptyObj) =
       Outcome.exn PyErr.typeError st' w') :=
  ⟨((claim_C7 stFix (mkWorld trErr) pFix rfl rfl).1
      (by intro n; refine ⟨?_, ?_, ?_⟩ <;> simp [mkWorld, trErr])).1,
   (claim_C7 stFix (mkWorld trEmptyObj) pFix rfl rfl).2 [] rfl rfl rfl⟩

/-- Claim C8, counterexample: a handle whose refresh finds no matching entry
keeps its descriptor unset (`None`), and the typed accessor `account_id` on
exactly such a handle raises `AttributeError` instead of reporting missing
data. -/
theorem claim_C8_counterexample :
    (match RingGeneric.get_attrs devFix stFix (mkWorld trChimes) with
     | Outcome.ok (dev, r) _ _ => dev.attrs = JVal.null ∧ r = none
     | _ => False) ∧
    RingGeneric.account_id devFix = Except.error PyErr.attributeError :=
  ⟨⟨rfl, rfl⟩, rfl⟩

/-- Claim C8 (amended): when the refresh finds no entry whose `description`
equals the handle's name, the held descriptor is left unset; every typed
read accessor on such a never-populated handle (descriptor `None`) then
raises `AttributeError` rather than reporting missing data. -/
theorem claim_C8 (dev : Device) (st : RingClient) (w : World) (p : Dict)
    (fs : List (String × JVal)) (xs : List JVal)
    (hattrs : dev.attrs = JVal.null)
    (hd : st.debug = false) (hp : st.params = some p)
    (h200 : (w.transport w.calls).status = 200)
    (hjson : (w.transport w.calls).json = JVal.obj fs)
    (hfam : dget fs dev.family = some (JVal.arr xs))
    (hloc : locatorAux "description" dev.name xs 0 = Except.ok none) :
    (∃ st' w', RingGeneric.get_attrs dev st w = Outcome.ok (dev, none) st' w') ∧
    (RingGeneric.account_id dev = Except.error PyErr.attributeError ∧
     RingGeneric.address dev = Except.error PyErr.attributeError ∧
     RingGeneric.firmware dev = Except.error PyErr.attributeError ∧
     RingGeneric.id dev = Except.error PyErr.attributeError ∧
     RingGeneric.latitude dev = Except.error PyErr.attributeError ∧
     RingGeneric.longitude dev = Except.error PyErr.attributeError ∧
     RingGeneric.kind dev = Except.error PyErr.attributeError ∧
     RingGeneric.timezone dev = Except.error PyErr.attributeError) := by
  have hdbg : (st.debug && !(truthy st.is_connected)) = false := by simp [hd]
  have hm : mergeParams st none = Except.ok (st, p) := by simp [mergeParams, hp]
  have hq := queryLoop_first200_get none RETRY_TOKEN st st w p hm h200
  rw [hjson] at hq
  have hquery : RingClient.query st w devicesUrl RETRY_TOKEN Method.GET false none =
      Outcome.ok (some (QueryResult.json (JVal.obj fs))) st (onceWorld w p) := by
    simpa [RingClient.query, hdbg, onceWorld] using hq
  constructor
  · refine ⟨st, onceWorld w p, ?_⟩
    simp [RingGeneric.get_attrs, hquery, getAttrsScan, pyGet, hfam, hloc]
  · exact ⟨by simp [RingGeneric.account_id, pyGet, hattrs],
      by simp [RingGeneric.address, pyGet, hattrs],
      by simp [RingGeneric.firmware, pyGet, hattrs],
      by simp [RingGeneric.id, pyGet, hattrs],
      by simp [RingGeneric.latitude, pyGet, hattrs],
      by simp [RingGeneric.longitude, pyGet, hattrs],
      by simp [RingGeneric.kind, pyGet, hattrs],
      by simp [RingGeneric.timezone, pyGet, hattrs]⟩

/-- Claim C8, witness: the chime handle named "Front" against a device list
holding an empty `chimes` sub-list. -/
theorem claim_C8_witness :
    (∃ st' w', RingGeneric.get_attrs devFix stFix (mkWorld trChimes) =
       Outcome.ok (devFix, none) st' w') ∧
    (RingGeneric.account_id devFix = Except.error PyErr.attributeError ∧
     RingGeneric.address devFix = Except.error PyErr.attributeError ∧
     RingGeneric.firmware devFix = Except.error PyErr.attributeError ∧
     RingGeneric.id devFix = Except.error PyErr.attributeError ∧
     RingGeneric.latitude devFix = Except.error PyErr.attributeError ∧
     RingGeneric.longitude devFix = Except.error PyErr.attributeError ∧
     RingGeneric.kind devFix = Except.error PyErr.attributeError ∧
     RingGeneric.timezone devFix = Except.error PyErr.attributeError) :=
  claim_C8 devFix stFix (mkWorld trChimes) pFix [("chimes", JVal.arr [])] []
    rfl rfl rfl rfl rfl rfl rfl

/-- Claim C10: `RingDoorBell.history` iterates the query result
unconditionally, so whenever the underlying query soft-fails and returns
`None` (here: a transport exhausting all attempts without a qualifying
status), `history` raises a `TypeError` instead of returning a null or empty
result — for every timestamp-conversion pipeline and every limit. -/
theorem claim_C10 (conv : String → Except PyErr JVal) (dev : Device)
    (st : RingClient) (w : World) (afs : List (String × JVal)) (limit : Int)
    (hattrs : dev.attrs = JVal.obj afs)
    (hd : st.debug = false) (hp : st.params.isSome)
    (hbad : neverQualifies w.transport) :
    ∃ st' w', RingDoorBell.history conv dev st w limit =
      Outcome.exn PyErr.typeError st' w' := by
  have hdbg : (st.debug && !(truthy st.is_connected)) = false := by simp [hd]
  obtain ⟨st', w', hq⟩ := queryLoop_exhaust_extra Method.GET false
      (some [("limit", JVal.str (toString limit))]) (RETRY_TOKEN + 1) st w hp hbad
  have hquery : ∀ u : String, RingClient.query st w u RETRY_TOKEN Method.GET false
      (some [("limit", JVal.str (toString limit))]) = Outcome.ok none st' w' := by
    intro u
    simpa [RingClient.query, hdbg] using hq
  refine ⟨st', w', ?_⟩
  simp [RingDoorBell.history, RingGeneric.account_id, pyGet, hattrs, hquery]

/-- Claim C10, witness: a doorbell handle with an account id, the connected
witness session, and the all-500 transport. -/
theorem claim_C10_witness :
    ∃ st' w', RingDoorBell.history (fun s => Except.ok JVal.null) devObjFix stFix
        (mkWorld trErr) 30 = Outcome.exn PyErr.typeError st' w' :=
  claim_C10 (fun s => Except.ok JVal.null) devObjFix stFix (mkWorld trErr)
    [("id", JVal.int 1)] 30 rfl rfl rfl
    (by intro n; refine ⟨?_, ?_, ?_⟩ <;> simp [mkWorld, trErr])
